import Mathlib

set_option autoImplicit false

/-
Shallow embedding of the Movie-Search aggregation service
(app/models/movie.py, app/services/movie_service.py,
app/api/endpoints/movies.py, app/core/exceptions.py).

Network calls are modelled by passing each HTTP call's outcome (parsed
payload, HTTP status error raised by raise_for_status, or any other
exception) as an explicit argument; pydantic validation of one raw item
is modelled as an Option-valued mapping (none = ValidationError, item
dropped).  URL well-formedness of poster fields (pydantic HttpUrl) is
abstracted: poster strings are carried verbatim.
-/

namespace MovieSearchApi

/-- MovieType enum from app/models/movie.py: the only values accepted by
the endpoint's type query parameter. -/
inductive MovieType where
  | movie
  | series
  deriving DecidableEq, Repr

/-- The Literal type of the Movie.type field in app/models/movie.py:
one of movie, series, episode, game. -/
inductive ContentType where
  | movie
  | series
  | episode
  | game
  deriving DecidableEq, Repr

/-- The Literal type of Movie.source_api: OMDB or TMDB. -/
inductive SourceApi where
  | OMDB
  | TMDB
  deriving DecidableEq, Repr

/-- The unified Movie model (app/models/movie.py, class Movie).
Optional fields are Option; list-valued fields keep the possibility of
being absent (None) distinct from being empty, exactly as in pydantic. -/
structure Movie where
  title : String
  year : String
  imdb_id : String
  type : ContentType
  source_api : SourceApi
  poster : Option String
  genres : Option (List String)
  actors : Option (List String)
  deriving DecidableEq, Repr

/-- MovieSearchResult (app/models/movie.py): note that total_results is
an ordinary int field of the model, set by whoever constructs the value. -/
structure MovieSearchResult where
  search_results : List Movie
  total_results : Nat
  response : Bool
  deriving DecidableEq, Repr

/-- ServiceUnavailable (app/core/exceptions.py). -/
structure ServiceUnavailable where
  service_name : String
  status_code : Nat
  detail : String
  deriving DecidableEq, Repr

/-- The failure of one HTTP call: an httpx.HTTPStatusError raised by
raise_for_status on a non-2xx response (carrying the upstream status),
or any other exception (network error, JSON decode error, ...). -/
inductive HttpError where
  | statusError (status : Nat) (msg : String)
  | otherError (msg : String)
  deriving DecidableEq, Repr

/-- Outcome of one HTTP interaction: a successfully parsed payload, or a
failure. -/
inductive CallOutcome (α : Type) where
  | ok (payload : α)
  | fail (e : HttpError)
  deriving DecidableEq, Repr

/-- Python truthiness of an optional string: None and the empty string
are falsy (this is what `if not title` / `title if title else ...` test). -/
def truthyStr (s : Option String) : Bool :=
  match s with
  | none => false
  | some t => t != ""

/-! ## OMDB adapter (app/services/movie_service.py, class OMDBService) -/

/-- One raw item of the OMDB Search array.  A field is none when it is
absent from the payload or fails pydantic validation for its target type
(e.g. a Type string outside the Literal values). -/
structure OmdbRawItem where
  title : Option String
  year : Option String
  imdbID : Option String
  type : Option ContentType
  poster : Option String
  deriving DecidableEq, Repr

/-- The parsed OMDB response body: Response == "True" with a Search
array, or anything else (treated as zero matches). -/
inductive OmdbResponse where
  | respTrue (items : List OmdbRawItem)
  | respFalse
  deriving DecidableEq, Repr

/-- Mapping of one OMDB raw item into Movie, mirroring the per-item loop
of OMDBService.search: source_api is set to OMDB, genres and actors are
set to empty lists, and Movie(**movie_data) fails (item dropped) iff a
required field is missing or invalid. -/
def omdbMapItem (it : OmdbRawItem) : Option Movie :=
  match it.title, it.year, it.imdbID, it.type with
  | some t, some y, some i, some k =>
      some { title := t, year := y, imdb_id := i, type := k,
             source_api := SourceApi.OMDB, poster := it.poster,
             genres := some [], actors := some [] }
  | _, _, _, _ => none

namespace OMDBService

/-- OMDBService.search: on a 2xx response with Response == "True" the
validated items are returned (validation failures dropped); on any
other 2xx response the empty list; an HTTPStatusError is re-raised as
ServiceUnavailable("OMDB", upstream status, str(e)); every other
exception as ServiceUnavailable("OMDB", 500, str(e)). -/
def search (outcome : CallOutcome OmdbResponse) : Except ServiceUnavailable (List Movie) :=
  match outcome with
  | CallOutcome.ok (OmdbResponse.respTrue items) => Except.ok (items.filterMap omdbMapItem)
  | CallOutcome.ok OmdbResponse.respFalse => Except.ok []
  | CallOutcome.fail (HttpError.statusError s msg) =>
      Except.error { service_name := "OMDB", status_code := s, detail := msg }
  | CallOutcome.fail (HttpError.otherError msg) =>
      Except.error { service_name := "OMDB", status_code := 500, detail := msg }

end OMDBService

/-! ## TMDB adapter (app/services/movie_service.py, class TMDBService) -/

/-- The two TMDB search sub-kinds ("movie" and "tv"). -/
inductive TmdbKind where
  | movie
  | tv
  deriving DecidableEq, Repr

/-- One raw item of a TMDB search response.  A none date or poster_path
covers both an absent key and a JSON null value. -/
structure TmdbHit where
  id : Nat
  title : Option String
  name : Option String
  release_date : Option String
  first_air_date : Option String
  poster_path : Option String
  deriving DecidableEq, Repr

/-- The dict returned by TMDBService._get_details. -/
structure TmdbDetails where
  genres : List String
  actors : List String
  deriving DecidableEq, Repr

/-- Python s.split of the string on the dash character, element 0: the
longest prefix of s containing no dash. -/
def splitDashHead (s : String) : String :=
  String.mk (s.data.takeWhile (fun ch => ch != '-'))

/-- item_data.get(key, "N/A") or "N/A": the default covers both an
absent/null key (none) and a present-but-empty string. -/
def pyOrNA (v : Option String) : String :=
  match v with
  | none => "N/A"
  | some s => if s = "" then "N/A" else s

/-- The year mapping of TMDBService._search_single_type:
(item_data.get(dateKey, "N/A") or "N/A").split(dash)[0]. -/
def tmdbYear (dateField : Option String) : String :=
  splitDashHead (pyOrNA dateField)

namespace TMDBService

/-- TMDBService._get_details (Lean identifiers cannot begin with an
underscore): two concurrent calls (details, credits); if either fails
the whole lookup fails with that error (the details failure is reported
first, a determinization of the asyncio.gather race); otherwise genres
is the list of genre names and actors the first 5 cast names. -/
def get_details (detailsOutcome creditsOutcome : CallOutcome (List String)) :
    Except HttpError TmdbDetails :=
  match detailsOutcome with
  | CallOutcome.fail e => Except.error e
  | CallOutcome.ok genreNames =>
    match creditsOutcome with
    | CallOutcome.fail e => Except.error e
    | CallOutcome.ok castNames =>
        Except.ok { genres := genreNames, actors := castNames.take 5 }

/-- item_data.get("name" if is_series else "title"). -/
def titleField (k : TmdbKind) (item : TmdbHit) : Option String :=
  match k with
  | TmdbKind.tv => item.name
  | TmdbKind.movie => item.title

/-- item_data.get("first_air_date" if is_series else "release_date"). -/
def dateField (k : TmdbKind) (item : TmdbHit) : Option String :=
  match k with
  | TmdbKind.tv => item.first_air_date
  | TmdbKind.movie => item.release_date

/-- "series" if is_series else "movie". -/
def kindType (k : TmdbKind) : ContentType :=
  match k with
  | TmdbKind.tv => ContentType.series
  | TmdbKind.movie => ContentType.movie

/-- The poster template: image-CDN base expanded with poster_path when
poster_path is truthy, else None. -/
def posterField (p : Option String) : Option String :=
  match p with
  | none => none
  | some s => if s = "" then none else some ("https://image.tmdb.org/t/p/w500" ++ s)

/-- Mapping of one TMDB search hit plus its detail lookup into Movie,
mirroring the mapped_data dict of _search_single_type.  The only field
whose absence makes Movie(**mapped_data) raise ValidationError (item
dropped) is the required title (None when the key is missing). -/
def mapHit (k : TmdbKind) (item : TmdbHit) (d : TmdbDetails) : Option Movie :=
  match titleField k item with
  | none => none
  | some t =>
      some { title := t,
             year := tmdbYear (dateField k item),
             imdb_id := "tmdb_" ++ toString item.id,
             type := kindType k,
             source_api := SourceApi.TMDB,
             poster := posterField item.poster_path,
             genres := some d.genres,
             actors := some d.actors }

end TMDBService

/-- asyncio.gather over fallible tasks, determinized to list order: the
first failing task's error propagates; if none fails, the list of all
results in task order. -/
def gatherExcept {ε α : Type} : List (Except ε α) → Except ε (List α)
  | [] => Except.ok []
  | x :: xs =>
    match x with
    | Except.error e => Except.error e
    | Except.ok a =>
      match gatherExcept xs with
      | Except.error e => Except.error e
      | Except.ok rest => Except.ok (a :: rest)

namespace TMDBService

/-- The details_tasks list of _search_single_type: one _get_details call
per search hit, keyed by that hit's own id. -/
def details_tasks (detailsOf creditsOf : Nat → CallOutcome (List String))
    (hits : List TmdbHit) : List (Except HttpError TmdbDetails) :=
  hits.map (fun it => get_details (detailsOf it.id) (creditsOf it.id))

/-- TMDBService._search_single_type: search call, early return on no
hits, concurrent detail fan-out, then the enumerate loop zipping
details_list back by index and dropping per-item validation failures. -/
def search_single_type (k : TmdbKind) (searchOutcome : CallOutcome (List TmdbHit))
    (detailsOf creditsOf : Nat → CallOutcome (List String)) :
    Except HttpError (List Movie) :=
  match searchOutcome with
  | CallOutcome.fail e => Except.error e
  | CallOutcome.ok hits =>
    if hits.isEmpty then Except.ok []
    else
      match gatherExcept (details_tasks detailsOf creditsOf hits) with
      | Except.error e => Except.error e
      | Except.ok details_list =>
          Except.ok ((hits.zip details_list).filterMap (fun p => mapHit k p.1 p.2))

/-- The two except clauses of TMDBService.search: an HTTPStatusError
becomes ServiceUnavailable("TMDB", upstream status, str(e)); every other
exception becomes ServiceUnavailable("TMDB", 500, str(e)). -/
def wrapError (he : HttpError) : ServiceUnavailable :=
  match he with
  | HttpError.statusError s msg => { service_name := "TMDB", status_code := s, detail := msg }
  | HttpError.otherError msg => { service_name := "TMDB", status_code := 500, detail := msg }

/-- The tasks list of TMDBService.search: one sub-search for the
requested kind, or both (movie then tv) when no kind filter is given. -/
def tasks (movie_type : Option MovieType)
    (movieSearchOutcome tvSearchOutcome : CallOutcome (List TmdbHit))
    (movieDetailsOf movieCreditsOf tvDetailsOf tvCreditsOf : Nat → CallOutcome (List String)) :
    List (Except HttpError (List Movie)) :=
  match movie_type with
  | some MovieType.movie =>
      [search_single_type TmdbKind.movie movieSearchOutcome movieDetailsOf movieCreditsOf]
  | some MovieType.series =>
      [search_single_type TmdbKind.tv tvSearchOutcome tvDetailsOf tvCreditsOf]
  | none =>
      [search_single_type TmdbKind.movie movieSearchOutcome movieDetailsOf movieCreditsOf,
       search_single_type TmdbKind.tv tvSearchOutcome tvDetailsOf tvCreditsOf]

/-- TMDBService.search: gather the sub-searches, flatten their results,
and translate any escaping exception via the two except clauses. -/
def search (movie_type : Option MovieType)
    (movieSearchOutcome tvSearchOutcome : CallOutcome (List TmdbHit))
    (movieDetailsOf movieCreditsOf tvDetailsOf tvCreditsOf : Nat → CallOutcome (List String)) :
    Except ServiceUnavailable (List Movie) :=
  match gatherExcept (tasks movie_type movieSearchOutcome tvSearchOutcome
      movieDetailsOf movieCreditsOf tvDetailsOf tvCreditsOf) with
  | Except.error e => Except.error (wrapError e)
  | Except.ok results_from_tasks => Except.ok results_from_tasks.flatten

end TMDBService

/-! ## Endpoint (app/api/endpoints/movies.py, search_movies) -/

/-- One step of the dict build of movies.py line 34.  A Python dict
keeps a duplicated key at its first-insertion position but updates its
value to the later one (last-seen-wins). -/
def dictInsert (d : List (String × Movie)) (key : String) (v : Movie) :
    List (String × Movie) :=
  if d.any (fun p => p.1 = key) then
    d.map (fun p => if p.1 = key then (key, v) else p)
  else d ++ [(key, v)]

/-- The all_movies dict comprehension of movies.py line 34.  Its filter,
`movie.imdb_id not in (all_movies := ...)`, re-evaluates the walrus
right-hand side — a fresh empty dict display — once per item, so the
membership test is against an empty dict and is always true; the
construct therefore reduces to a plain dict build over every movie of
every sublist, in which a repeated imdb_id key keeps its first position
and takes its last value. -/
def buildDict (ms : List Movie) : List (String × Movie) :=
  ms.foldl (fun d m => dictInsert d m.imdb_id m) []

/-- list(all_movies.values()) of movies.py line 35. -/
def dedupMovies (ms : List Movie) : List Movie :=
  (buildDict ms).map Prod.snd

/-- Python str.lower, modelled per character (ASCII case folding, the
relevant fragment for genre and actor names). -/
def pyLower (s : String) : String :=
  String.mk (s.data.map Char.toLower)

/-- The genre post-filter (movies.py lines 37-38): keep m iff m.genres
is truthy (not None, not empty) and contains a case-insensitive match. -/
def filterByGenre (genre : String) (ms : List Movie) : List Movie :=
  ms.filter (fun m =>
    match m.genres with
    | none => false
    | some gs => !gs.isEmpty && gs.any (fun g => pyLower g = pyLower genre))

/-- The actor post-filter (movies.py lines 39-40). -/
def filterByActor (actor : String) (ms : List Movie) : List Movie :=
  ms.filter (fun m =>
    match m.actors with
    | none => false
    | some as0 => !as0.isEmpty && as0.any (fun a => pyLower a = pyLower actor))

/-- Python `a or b` on an optional string against a string default. -/
def pyOrStr (a : Option String) (b : String) : String :=
  match a with
  | none => b
  | some s => if s = "" then b else s

/-- movies.py line 28: search_query = title if title else (actor or
genre or the wildcard term). -/
def deriveQuery (title actor genre : Option String) : String :=
  match title with
  | some t => if t = "" then pyOrStr actor (pyOrStr genre "a") else t
  | none => pyOrStr actor (pyOrStr genre "a")

/-- The provider environment a request runs against: the outcome of
each possible outbound call, as functions of the derived query (and for
OMDB the type filter), plus the per-id TMDB detail/credit lookups. -/
structure ProviderEnv where
  omdb : String → Option MovieType → CallOutcome OmdbResponse
  tmdbMovieSearch : String → CallOutcome (List TmdbHit)
  tmdbTvSearch : String → CallOutcome (List TmdbHit)
  tmdbMovieDetails : Nat → CallOutcome (List String)
  tmdbMovieCredits : Nat → CallOutcome (List String)
  tmdbTvDetails : Nat → CallOutcome (List String)
  tmdbTvCredits : Nat → CallOutcome (List String)

/-- What the endpoint can raise: HTTPException(400, detail) for missing
parameters, or the ServiceUnavailable propagated from an adapter (which
app/main.py turns into a 503 envelope naming the provider). -/
inductive ApiError where
  | httpException (status : Nat) (detail : String)
  | serviceUnavailable (e : ServiceUnavailable)
  deriving DecidableEq, Repr

/-- The TMDB side of the endpoint's fan-out, applied to the environment. -/
def tmdbCall (env : ProviderEnv) (q : String) (mt : Option MovieType) :
    Except ServiceUnavailable (List Movie) :=
  TMDBService.search mt (env.tmdbMovieSearch q) (env.tmdbTvSearch q)
    env.tmdbMovieDetails env.tmdbMovieCredits env.tmdbTvDetails env.tmdbTvCredits

/-- movies.py lines 37-40: genre filter first, then actor filter, each
applied only when its parameter is truthy. -/
def applyFilters (actor genre : Option String) (ms : List Movie) : List Movie :=
  let afterGenre := if truthyStr genre then filterByGenre (genre.getD "") ms else ms
  if truthyStr actor then filterByActor (actor.getD "") afterGenre else afterGenre

/-- The search_movies endpoint (movies.py lines 12-42).  The guard is
the contrapositive of `if not title and not actor and not genre`; the
sequential propagation of the two gathered adapter results determinizes
the asyncio.gather race by reporting OMDB's failure first.  OMDB results
precede TMDB results in the merged sequence, matching
asyncio.gather(omdb_task, tmdb_task) result order. -/
def search_movies (env : ProviderEnv) (title : Option String) (mtype : Option MovieType)
    (actor genre : Option String) : Except ApiError MovieSearchResult :=
  if truthyStr title || truthyStr actor || truthyStr genre then
    match OMDBService.search (env.omdb (deriveQuery title actor genre) mtype) with
    | Except.error e => Except.error (ApiError.serviceUnavailable e)
    | Except.ok omdbMovies =>
      match tmdbCall env (deriveQuery title actor genre) mtype with
      | Except.error e => Except.error (ApiError.serviceUnavailable e)
      | Except.ok tmdbMovies =>
        let final_results := applyFilters actor genre (dedupMovies (omdbMovies ++ tmdbMovies))
        Except.ok { search_results := final_results,
                    total_results := final_results.length, response := true }
  else
    Except.error (ApiError.httpException 400
      "At least one of title, actor, or genre must be provided.")

/-! ## Concrete fixtures used by witnesses and counterexamples -/

instance {ε α : Type} [DecidableEq ε] [DecidableEq α] : DecidableEq (Except ε α) := fun x y =>
  match x, y with
  | Except.ok u, Except.ok v =>
    if h : u = v then Decidable.isTrue (by rw [h])
    else Decidable.isFalse (by intro hc; cases hc; exact h rfl)
  | Except.error u, Except.error v =>
    if h : u = v then Decidable.isTrue (by rw [h])
    else Decidable.isFalse (by intro hc; cases hc; exact h rfl)
  | Except.ok _, Except.error _ => Decidable.isFalse (by intro hc; cases hc)
  | Except.error _, Except.ok _ => Decidable.isFalse (by intro hc; cases hc)

/-- An OMDB search item carrying the natural_id tmdb_603 (nothing in the
adapters constrains the shape of an id string OMDB reports). -/
def omdbRawA : OmdbRawItem :=
  { title := some "The Matrix", year := some "1999", imdbID := some "tmdb_603",
    type := some ContentType.movie, poster := none }

/-- The Movie the OMDB adapter produces from omdbRawA. -/
def movieA : Movie :=
  { title := "The Matrix", year := "1999", imdb_id := "tmdb_603",
    type := ContentType.movie, source_api := SourceApi.OMDB, poster := none,
    genres := some [], actors := some [] }

/-- A TMDB movie search hit with native id 603. -/
def hit603 : TmdbHit :=
  { id := 603, title := some "Matrix", name := none, release_date := some "1999-03-31",
    first_air_date := none, poster_path := none }

/-- The Movie the TMDB adapter produces from hit603: same natural_id
tmdb_603 as movieA but different field values. -/
def movieB : Movie :=
  { title := "Matrix", year := "1999", imdb_id := "tmdb_603",
    type := ContentType.movie, source_api := SourceApi.TMDB, poster := none,
    genres := some ["Action"], actors := some ["Keanu Reeves"] }

/-- A healthy environment in which OMDB returns omdbRawA and TMDB movie
search returns hit603 (so the two adapters collide on tmdb_603). -/
def envC1 : ProviderEnv :=
  { omdb := fun _ _ => CallOutcome.ok (OmdbResponse.respTrue [omdbRawA]),
    tmdbMovieSearch := fun _ => CallOutcome.ok [hit603],
    tmdbTvSearch := fun _ => CallOutcome.ok [],
    tmdbMovieDetails := fun _ => CallOutcome.ok ["Action"],
    tmdbMovieCredits := fun _ => CallOutcome.ok ["Keanu Reeves"],
    tmdbTvDetails := fun _ => CallOutcome.ok [],
    tmdbTvCredits := fun _ => CallOutcome.ok [] }

/-- An environment whose OMDB call fails with upstream status 503. -/
def envFail : ProviderEnv :=
  { envC1 with omdb := fun _ _ => CallOutcome.fail (HttpError.statusError 503 "down") }

/-- The aggregate result envC1 yields for the query Matrix. -/
def resultC1 : MovieSearchResult :=
  { search_results := [movieB], total_results := 1, response := true }

/-! ## Claims -/

/-- C1: on a natural_id collision between the two adapters, the merged
set keeps exactly one record for that id, but it is the LAST adapter's
(TMDB) record, not the first's: the walrus guard of the dict
comprehension on movies.py line 34 tests membership in a freshly created
empty dict, so every movie is admitted and the dict build is
last-seen-wins.  Here both adapters return a record with natural_id
tmdb_603, OMDB first in gather order, and the aggregate result contains
only the TMDB record. -/
theorem C1_dedup_keeps_last_adapter_record :
    movieA.imdb_id = movieB.imdb_id ∧ movieA ≠ movieB ∧
    OMDBService.search (envC1.omdb "Matrix" none) = Except.ok [movieA] ∧
    dedupMovies [movieA, movieB] = [movieB] ∧
    search_movies envC1 (some "Matrix") none none none = Except.ok resultC1 ∧
    movieB.source_api = SourceApi.TMDB := by decide

/-- C2 is false as stated: total_results is an ordinary, independently
settable int field of MovieSearchResult (app/models/movie.py lines
62-68), so a value whose total_results drifts from the record count is
constructible. -/
theorem C2_counterexample :
    ∃ r : MovieSearchResult, r.total_results ≠ r.search_results.length :=
  ⟨{ search_results := [], total_results := 5, response := true }, by decide⟩

/-- C2 (amended): every MovieSearchResult actually produced by the
search operation has total_results equal to the length of
search_results, because the endpoint always passes len(final_results). -/
theorem C2_total_equals_length (env : ProviderEnv) (title : Option String)
    (mtype : Option MovieType) (actor genre : Option String) (r : MovieSearchResult)
    (h : search_movies env title mtype actor genre = Except.ok r) :
    r.total_results = r.search_results.length := by
  unfold search_movies at h
  split at h
  · cases ho : OMDBService.search (env.omdb (deriveQuery title actor genre) mtype) with
    | error e => rw [ho] at h; cases h
    | ok om =>
      rw [ho] at h
      cases ht : tmdbCall env (deriveQuery title actor genre) mtype with
      | error e => rw [ht] at h; cases h
      | ok tm => rw [ht] at h; cases h; rfl
  · cases h

/-- C2 witness: a concrete successful run of the amended statement. -/
theorem C2_witness :
    search_movies envC1 (some "Matrix") none none none = Except.ok resultC1 ∧
    resultC1.total_results = resultC1.search_results.length :=
  ⟨by decide,
   C2_total_equals_length envC1 (some "Matrix") none none none resultC1 (by decide)⟩

/-- C4: when none of title, actor, genre is supplied, the endpoint
fails with the 400 client error, for every type parameter; and the
result is identical across arbitrary provider environments, so no
provider call can contribute to (or be required for) the response. -/
theorem C4_missing_params_400 (env env2 : ProviderEnv) (mtype mtype2 : Option MovieType) :
    search_movies env none mtype none none =
      Except.error (ApiError.httpException 400
        "At least one of title, actor, or genre must be provided.") ∧
    search_movies env none mtype none none = search_movies env2 none mtype2 none none :=
  ⟨rfl, rfl⟩

/-- C8: the provider query falls back title, then actor, then genre,
then the fixed wildcard term, and is never empty. -/
theorem C8_query_derivation :
    (∀ t a g, t ≠ "" → deriveQuery (some t) a g = t) ∧
    (∀ a g, a ≠ "" → deriveQuery none (some a) g = a) ∧
    (∀ g, g ≠ "" → deriveQuery none none (some g) = g) ∧
    (deriveQuery none none none = "a") ∧
    (∀ t a g, deriveQuery t a g ≠ "") := by
  refine ⟨?_, ?_, ?_, rfl, ?_⟩
  · intro t a g ht; simp [deriveQuery, ht]
  · intro a g ha; simp [deriveQuery, pyOrStr, ha]
  · intro g hg; simp [deriveQuery, pyOrStr, hg]
  · intro t a g
    unfold deriveQuery pyOrStr
    cases t with
    | some t0 =>
      by_cases h : t0 = ""
      · simp only [h, if_pos rfl]
        cases a with
        | some a0 =>
          by_cases h2 : a0 = ""
          · simp only [h2, if_pos rfl]
            cases g with
            | some g0 => by_cases h3 : g0 = "" <;> simp [h3]
            | none => simp
          · simp [h2]
        | none =>
          cases g with
          | some g0 => by_cases h3 : g0 = "" <;> simp [h3]
          | none => simp
      · simp [h]
    | none =>
      cases a with
      | some a0 =>
        by_cases h2 : a0 = ""
        · simp only [h2, if_pos rfl]
          cases g with
          | some g0 => by_cases h3 : g0 = "" <;> simp [h3]
          | none => simp
        · simp [h2]
      | none =>
        cases g with
        | some g0 => by_cases h3 : g0 = "" <;> simp [h3]
        | none => simp

/-- C8 witness: a supplied title is used verbatim as the query. -/
theorem C8_witness : deriveQuery (some "Matrix") none none = "Matrix" :=
  C8_query_derivation.1 "Matrix" none none (by decide)

/-- C5: each post-filter never increases the record count, yields a
subset of its input, and every surviving record's genres (resp. actors)
contains a case-insensitive match of the filter value. -/
theorem C5_filter_composition :
    (∀ g ms, (filterByGenre g ms).length ≤ ms.length) ∧
    (∀ g ms, filterByGenre g ms ⊆ ms) ∧
    (∀ g ms m, m ∈ filterByGenre g ms →
       ∃ gs, m.genres = some gs ∧ ∃ x ∈ gs, pyLower x = pyLower g) ∧
    (∀ a ms, (filterByActor a ms).length ≤ ms.length) ∧
    (∀ a ms, filterByActor a ms ⊆ ms) ∧
    (∀ a ms m, m ∈ filterByActor a ms →
       ∃ as0, m.actors = some as0 ∧ ∃ x ∈ as0, pyLower x = pyLower a) := by
  refine ⟨?_, ?_, ?_, ?_, ?_, ?_⟩
  · intro g ms; exact List.length_filter_le _ ms
  · intro g ms m hm; exact (List.mem_filter.mp hm).1
  · intro g ms m hm
    obtain ⟨-, hp⟩ := List.mem_filter.mp hm
    cases hgs : m.genres with
    | none => rw [hgs] at hp; simp at hp
    | some gs =>
      rw [hgs] at hp
      simp only [Bool.and_eq_true, List.any_eq_true, decide_eq_true_eq] at hp
      exact ⟨gs, rfl, hp.2⟩
  · intro a ms; exact List.length_filter_le _ ms
  · intro a ms m hm; exact (List.mem_filter.mp hm).1
  · intro a ms m hm
    obtain ⟨-, hp⟩ := List.mem_filter.mp hm
    cases has : m.actors with
    | none => rw [has] at hp; simp at hp
    | some as0 =>
      rw [has] at hp
      simp only [Bool.and_eq_true, List.any_eq_true, decide_eq_true_eq] at hp
      exact ⟨as0, rfl, hp.2⟩

/-- C5 witness: a record surviving the genre filter at a concrete
differently-cased filter value carries a case-insensitive match. -/
theorem C5_witness :
    ∃ gs, movieB.genres = some gs ∧ ∃ x ∈ gs, pyLower x = pyLower "aCtIoN" :=
  C5_filter_composition.2.2.1 "aCtIoN" [movieB] movieB (by decide)

/-- Taking the prefix of a list up to the first element failing the
predicate is unaffected by anything after that element. -/
theorem takeWhile_append_stop {α : Type} (p : α → Bool) (l1 l2 : List α) (x : α)
    (h1 : ∀ c ∈ l1, p c = true) (h2 : p x = false) :
    (l1 ++ x :: l2).takeWhile p = l1 := by
  induction l1 with
  | nil => simp [List.takeWhile_cons, h2]
  | cons a tl ih =>
    have ha := h1 a (List.mem_cons_self a tl)
    have ih2 := ih (fun c hc => h1 c (List.mem_cons_of_mem a hc))
    simp [List.cons_append, List.takeWhile_cons, ha, ih2]

/-- C7: the mapped year is the sentinel when the date is absent (or
null) or empty, and otherwise the 4-digit prefix of a well-formed date
string (4 dash-free characters, then a dash, then the remainder). -/
theorem C7_year_mapping :
    tmdbYear none = "N/A" ∧ tmdbYear (some "") = "N/A" ∧
    ∀ y rest : String, y.length = 4 → (∀ c ∈ y.data, c ≠ '-') →
      tmdbYear (some (y ++ "-" ++ rest)) = y := by
  refine ⟨rfl, rfl, ?_⟩
  intro y rest hlen hnd
  have hne : y ++ "-" ++ rest ≠ "" := by
    intro hc
    have h0 : (y ++ "-" ++ rest).data = ("" : String).data := by rw [hc]
    simp [String.data_append] at h0
  simp only [tmdbYear, pyOrNA]
  rw [if_neg hne]
  unfold splitDashHead
  have hdata : (y ++ "-" ++ rest).data = y.data ++ '-' :: rest.data := by
    simp [String.data_append]
  rw [hdata, takeWhile_append_stop]
  · intro c hc
    simp only [bne_iff_ne, ne_eq]
    exact hnd c hc
  · decide

/-- C7 witness: a concrete release date maps to its 4-digit prefix. -/
theorem C7_witness : tmdbYear (some ("2010" ++ "-" ++ "07-16")) = "2010" :=
  C7_year_mapping.2.2 "2010" "07-16" (by decide) (by decide)

/-- C10: every error escaping an adapter search is a ServiceUnavailable
naming that adapter; for OMDB a raised HTTPStatusError keeps the
upstream status and every other failure maps to 500; symmetrically, any
error escaping TMDBService.search names TMDB, keeps the upstream status
when the underlying failure was an HTTPStatusError, and is 500 for every
other failure.  Per-item validation errors never reach this path: they
are dropped inside the mapping loops. -/
theorem C10_error_mapping :
    (∀ outc e, OMDBService.search outc = Except.error e → e.service_name = "OMDB") ∧
    (∀ s msg, OMDBService.search (CallOutcome.fail (HttpError.statusError s msg)) =
       Except.error { service_name := "OMDB", status_code := s, detail := msg }) ∧
    (∀ msg, OMDBService.search (CallOutcome.fail (HttpError.otherError msg)) =
       Except.error { service_name := "OMDB", status_code := 500, detail := msg }) ∧
    (∀ mt mS tvS dM cM dT cT e,
       TMDBService.search mt mS tvS dM cM dT cT = Except.error e →
       e.service_name = "TMDB" ∧
       ((∃ s msg, gatherExcept (TMDBService.tasks mt mS tvS dM cM dT cT) =
            Except.error (HttpError.statusError s msg) ∧ e.status_code = s ∧ e.detail = msg) ∨
        (∃ msg, gatherExcept (TMDBService.tasks mt mS tvS dM cM dT cT) =
            Except.error (HttpError.otherError msg) ∧ e.status_code = 500 ∧ e.detail = msg))) := by
  refine ⟨?_, ?_, ?_, ?_⟩
  · intro outc e h
    cases outc with
    | ok resp => cases resp <;> simp [OMDBService.search] at h
    | fail he =>
      cases he with
      | statusError s msg =>
        simp only [OMDBService.search] at h
        injection h with h2
        rw [← h2]
      | otherError msg =>
        simp only [OMDBService.search] at h
        injection h with h2
        rw [← h2]
  · intro s msg; rfl
  · intro msg; rfl
  · intro mt mS tvS dM cM dT cT e h
    unfold TMDBService.search at h
    cases hg : gatherExcept (TMDBService.tasks mt mS tvS dM cM dT cT) with
    | ok l => rw [hg] at h; simp at h
    | error he =>
      rw [hg] at h
      simp only [] at h
      cases he with
      | statusError s msg =>
        have h2 : TMDBService.wrapError (HttpError.statusError s msg) = e := by
          injection h
        rw [← h2]
        exact ⟨rfl, Or.inl ⟨s, msg, rfl, rfl, rfl⟩⟩
      | otherError msg =>
        have h2 : TMDBService.wrapError (HttpError.otherError msg) = e := by
          injection h
        rw [← h2]
        exact ⟨rfl, Or.inr ⟨msg, rfl, rfl, rfl⟩⟩

/-- C10 witness: a concrete upstream 503 escapes OMDB as a
ServiceUnavailable whose service_name is OMDB. -/
theorem C10_witness :
    ({ service_name := "OMDB", status_code := 503, detail := "down" } :
      ServiceUnavailable).service_name = "OMDB" :=
  C10_error_mapping.1 (CallOutcome.fail (HttpError.statusError 503 "down"))
    { service_name := "OMDB", status_code := 503, detail := "down" } (by decide)

/-- asyncio.gather fails whenever one of its tasks fails. -/
theorem gatherExcept_error_of_mem {ε α : Type} (l : List (Except ε α)) (e : ε)
    (h : Except.error e ∈ l) : ∃ e2, gatherExcept l = Except.error e2 := by
  induction l with
  | nil => cases h
  | cons x xs ih =>
    cases x with
    | error e0 => exact ⟨e0, rfl⟩
    | ok a =>
      rcases List.mem_cons.mp h with h2 | h2
      · cases h2
      · obtain ⟨e2, hg⟩ := ih h2
        exact ⟨e2, by simp [gatherExcept, hg]⟩

/-- An OMDB adapter failure propagates unchanged out of the endpoint. -/
theorem search_movies_omdb_error (env : ProviderEnv) (title : Option String)
    (mtype : Option MovieType) (actor genre : Option String) (e : ServiceUnavailable)
    (hval : (truthyStr title || truthyStr actor || truthyStr genre) = true)
    (h : OMDBService.search (env.omdb (deriveQuery title actor genre) mtype) = Except.error e) :
    search_movies env title mtype actor genre = Except.error (ApiError.serviceUnavailable e) := by
  unfold search_movies
  simp only [hval, if_true, h]

/-- A TMDB adapter failure propagates unchanged out of the endpoint. -/
theorem search_movies_tmdb_error (env : ProviderEnv) (title : Option String)
    (mtype : Option MovieType) (actor genre : Option String) (om : List Movie)
    (e : ServiceUnavailable)
    (hval : (truthyStr title || truthyStr actor || truthyStr genre) = true)
    (ho : OMDBService.search (env.omdb (deriveQuery title actor genre) mtype) = Except.ok om)
    (ht : tmdbCall env (deriveQuery title actor genre) mtype = Except.error e) :
    search_movies env title mtype actor genre = Except.error (ApiError.serviceUnavailable e) := by
  unfold search_movies
  simp only [hval, if_true, ho, ht]

/-- One failed per-item detail lookup fails the whole TMDB adapter call
with an error naming TMDB. -/
theorem tmdb_detail_failure (env : ProviderEnv) (q : String) (hits : List TmdbHit)
    (hit : TmdbHit) (he : HttpError)
    (hsearch : env.tmdbMovieSearch q = CallOutcome.ok hits)
    (hmem : hit ∈ hits)
    (hdet : TMDBService.get_details (env.tmdbMovieDetails hit.id) (env.tmdbMovieCredits hit.id) =
      Except.error he) :
    ∃ e2, tmdbCall env q (some MovieType.movie) = Except.error e2 ∧ e2.service_name = "TMDB" := by
  have hmemtask : Except.error (α := TmdbDetails) he ∈
      TMDBService.details_tasks env.tmdbMovieDetails env.tmdbMovieCredits hits := by
    unfold TMDBService.details_tasks
    rw [← hdet]
    exact List.mem_map_of_mem _ hmem
  obtain ⟨e1, hg⟩ := gatherExcept_error_of_mem _ he hmemtask
  have hne : hits.isEmpty = false := by
    cases hits with
    | nil => cases hmem
    | cons a tl => rfl
  have hst : TMDBService.search_single_type TmdbKind.movie (CallOutcome.ok hits)
      env.tmdbMovieDetails env.tmdbMovieCredits = Except.error e1 := by
    unfold TMDBService.search_single_type
    simp only [hne, Bool.false_eq_true, if_false, hg]
  refine ⟨TMDBService.wrapError e1, ?_, by cases e1 <;> rfl⟩
  unfold tmdbCall TMDBService.search TMDBService.tasks
  rw [hsearch, hst]
  rfl

/-- C3: fail-fast aggregation.  If the OMDB adapter fails, the whole
search fails with exactly that ServiceUnavailable; if the TMDB adapter
fails, likewise; and if even a single per-item detail-enrichment lookup
fails (shown for the movie branch), the whole search fails with a
ServiceUnavailable naming TMDB.  In every case the endpoint returns an
error, never a partial result list. -/
theorem C3_fail_fast :
    (∀ env title mtype actor genre e,
       (truthyStr title || truthyStr actor || truthyStr genre) = true →
       OMDBService.search (env.omdb (deriveQuery title actor genre) mtype) = Except.error e →
       search_movies env title mtype actor genre = Except.error (ApiError.serviceUnavailable e)) ∧
    (∀ env title mtype actor genre om e,
       (truthyStr title || truthyStr actor || truthyStr genre) = true →
       OMDBService.search (env.omdb (deriveQuery title actor genre) mtype) = Except.ok om →
       tmdbCall env (deriveQuery title actor genre) mtype = Except.error e →
       search_movies env title mtype actor genre = Except.error (ApiError.serviceUnavailable e)) ∧
    (∀ env title actor genre om hits hit he,
       (truthyStr title || truthyStr actor || truthyStr genre) = true →
       OMDBService.search (env.omdb (deriveQuery title actor genre) (some MovieType.movie)) =
         Except.ok om →
       env.tmdbMovieSearch (deriveQuery title actor genre) = CallOutcome.ok hits →
       hit ∈ hits →
       TMDBService.get_details (env.tmdbMovieDetails hit.id) (env.tmdbMovieCredits hit.id) =
         Except.error he →
       ∃ e, search_movies env title (some MovieType.movie) actor genre =
              Except.error (ApiError.serviceUnavailable e) ∧ e.service_name = "TMDB") := by
  refine ⟨search_movies_omdb_error, search_movies_tmdb_error, ?_⟩
  intro env title actor genre om hits hit he hval ho hsearch hmem hdet
  obtain ⟨e2, ht, hname⟩ :=
    tmdb_detail_failure env (deriveQuery title actor genre) hits hit he hsearch hmem hdet
  exact ⟨e2, search_movies_tmdb_error env title (some MovieType.movie) actor genre om e2
    hval ho ht, hname⟩

/-- C3 witness: a concrete run in which the OMDB upstream answers 503
and the whole aggregate search fails with that error. -/
theorem C3_witness :
    search_movies envFail (some "Matrix") none none none =
      Except.error (ApiError.serviceUnavailable
        { service_name := "OMDB", status_code := 503, detail := "down" }) :=
  C3_fail_fast.1 envFail (some "Matrix") none none none
    { service_name := "OMDB", status_code := 503, detail := "down" } (by decide) (by decide)

/-- A gather of per-element calls that all succeed returns all results,
in element order. -/
theorem gatherExcept_ok_map {ε α β : Type} (l : List α) (f : α → Except ε β) (g : α → β)
    (h : ∀ x ∈ l, f x = Except.ok (g x)) :
    gatherExcept (l.map f) = Except.ok (l.map g) := by
  induction l with
  | nil => rfl
  | cons a tl ih =>
    simp [gatherExcept, h a (List.mem_cons_self a tl),
      ih (fun x hx => h x (List.mem_cons_of_mem a hx))]

/-- Zipping a list with its own image pairs each element with its own
image (the index-stable pairing of the enumerate loop). -/
theorem zip_self_map {α β : Type} (l : List α) (g : α → β) :
    l.zip (l.map g) = l.map (fun a => (a, g a)) := by
  induction l with
  | nil => rfl
  | cons a tl ih => simp [ih]

/-- A filterMap in which no element is dropped is a map. -/
theorem filterMap_eq_map_of_some {α β : Type} (l : List α) (f : α → Option β) (g : α → β)
    (h : ∀ x ∈ l, f x = some (g x)) : l.filterMap f = l.map g := by
  induction l with
  | nil => rfl
  | cons a tl ih =>
    rw [List.filterMap_cons, h a (List.mem_cons_self a tl)]
    simp [ih (fun x hx => h x (List.mem_cons_of_mem a hx))]

/-- The Movie mapHit produces when the hit passes validation. -/
def mapHitForced (k : TmdbKind) (item : TmdbHit) (d : TmdbDetails) : Movie :=
  { title := (TMDBService.titleField k item).getD "",
    year := tmdbYear (TMDBService.dateField k item),
    imdb_id := "tmdb_" ++ toString item.id,
    type := TMDBService.kindType k,
    source_api := SourceApi.TMDB,
    poster := TMDBService.posterField item.poster_path,
    genres := some d.genres,
    actors := some d.actors }

/-- On a hit whose title field is present, mapHit succeeds and produces
mapHitForced. -/
theorem mapHit_of_isSome (k : TmdbKind) (item : TmdbHit) (d : TmdbDetails)
    (h : (TMDBService.titleField k item).isSome) :
    TMDBService.mapHit k item d = some (mapHitForced k item d) := by
  cases htf : TMDBService.titleField k item with
  | none => rw [htf] at h; cases h
  | some t =>
    unfold TMDBService.mapHit mapHitForced
    rw [htf]
    rfl

/-- C6: for a batch of N search hits (whose detail lookups succeed and
that all pass validation), the enrichment step issues exactly N detail
lookups — one per hit, keyed by that hit's own id; the i-th resulting
record's genres and actors come from the detail lookup for the i-th
hit's own id; and the actors list is the cast list truncated to the
first 5 entries. -/
theorem C6_enrichment (k : TmdbKind) (hits : List TmdbHit)
    (dOf cOf : Nat → CallOutcome (List String)) (gsOf csOf : Nat → List String)
    (hok : ∀ h ∈ hits, dOf h.id = CallOutcome.ok (gsOf h.id) ∧
                       cOf h.id = CallOutcome.ok (csOf h.id))
    (hval : ∀ h ∈ hits, (TMDBService.titleField k h).isSome) :
    (TMDBService.details_tasks dOf cOf hits).length = hits.length ∧
    ∃ ms, TMDBService.search_single_type k (CallOutcome.ok hits) dOf cOf = Except.ok ms ∧
      ms.length = hits.length ∧
      ∀ i h2, hits.get? i = some h2 →
        ∃ m, ms.get? i = some m ∧
          m.genres = some (gsOf h2.id) ∧
          m.actors = some ((csOf h2.id).take 5) ∧
          ((csOf h2.id).take 5).length ≤ 5 := by
  have hlen : (TMDBService.details_tasks dOf cOf hits).length = hits.length := by
    unfold TMDBService.details_tasks
    exact List.length_map _ _
  refine ⟨hlen, ?_⟩
  have hdet : gatherExcept (TMDBService.details_tasks dOf cOf hits) =
      Except.ok (hits.map (fun h2 =>
        ({ genres := gsOf h2.id, actors := (csOf h2.id).take 5 } : TmdbDetails))) := by
    unfold TMDBService.details_tasks
    apply gatherExcept_ok_map
    intro h2 hh
    unfold TMDBService.get_details
    rw [(hok h2 hh).1, (hok h2 hh).2]
  cases hits with
  | nil =>
    refine ⟨[], rfl, rfl, ?_⟩
    intro i h2 hi
    simp at hi
  | cons a tl =>
    refine ⟨(a :: tl).map (fun h2 => mapHitForced k h2
      { genres := gsOf h2.id, actors := (csOf h2.id).take 5 }), ?_, by simp, ?_⟩
    · unfold TMDBService.search_single_type
      simp only [List.isEmpty_cons, Bool.false_eq_true, if_false]
      rw [hdet]
      simp only [zip_self_map, List.filterMap_map, Except.ok.injEq]
      rw [filterMap_eq_map_of_some]
      intro h2 hh
      exact mapHit_of_isSome k h2 _ (hval h2 hh)
    · intro i h2 hi
      refine ⟨mapHitForced k h2 { genres := gsOf h2.id, actors := (csOf h2.id).take 5 },
        ?_, rfl, rfl, List.length_take_le 5 _⟩
      rw [List.get?_map, hi]
      rfl

/-- The detail oracle used by the C6 witness. -/
def dOfW : Nat → CallOutcome (List String) := fun _ => CallOutcome.ok ["Action"]

/-- The credits oracle used by the C6 witness. -/
def cOfW : Nat → CallOutcome (List String) := fun _ => CallOutcome.ok ["Keanu Reeves"]

/-- C6 witness: a concrete 1-hit batch issues exactly 1 detail lookup. -/
theorem C6_witness : (TMDBService.details_tasks dOfW cOfW [hit603]).length = 1 := by
  have h := C6_enrichment TmdbKind.movie [hit603] dOfW cOfW
    (fun _ => ["Action"]) (fun _ => ["Keanu Reeves"])
    (by intro h2 hh; exact ⟨rfl, rfl⟩)
    (by intro h2 hh; simp only [List.mem_singleton] at hh; rw [hh]; rfl)
  simpa using h.1

/-- A pair in the updated dict was already present or is the inserted
binding. -/
theorem mem_of_mem_dictInsert (d : List (String × Movie)) (k : String) (v : Movie)
    (p : String × Movie) (h : p ∈ dictInsert d k v) : p ∈ d ∨ p = (k, v) := by
  unfold dictInsert at h
  split at h
  · rcases List.mem_map.mp h with ⟨q, hq, hqe⟩
    by_cases hk : q.1 = k
    · rw [if_pos hk] at hqe
      exact Or.inr hqe.symm
    · rw [if_neg hk] at hqe
      exact Or.inl (hqe ▸ hq)
  · rcases List.mem_append.mp h with h2 | h2
    · exact Or.inl h2
    · exact Or.inr (List.mem_singleton.mp h2)

/-- Every value in the built dict comes from the accumulator or from the
folded list of movies. -/
theorem mem_snd_of_mem_buildDict_fold (l : List Movie) :
    ∀ (d : List (String × Movie)) (p : String × Movie),
      p ∈ l.foldl (fun d2 m => dictInsert d2 m.imdb_id m) d → p ∈ d ∨ p.2 ∈ l := by
  induction l with
  | nil => intro d p h; exact Or.inl h
  | cons m tl ih =>
    intro d p h
    rcases ih (dictInsert d m.imdb_id m) p h with h2 | h2
    · rcases mem_of_mem_dictInsert d m.imdb_id m p h2 with h3 | h3
      · exact Or.inl h3
      · right; rw [h3]; exact List.mem_cons_self m tl
    · right; exact List.mem_cons_of_mem m h2

/-- Deduplication introduces no new records. -/
theorem mem_of_mem_dedupMovies (l : List Movie) (m : Movie)
    (h : m ∈ dedupMovies l) : m ∈ l := by
  unfold dedupMovies buildDict at h
  rcases List.mem_map.mp h with ⟨p, hp, he⟩
  rcases mem_snd_of_mem_buildDict_fold l [] p hp with h2 | h2
  · cases h2
  · exact he ▸ h2

/-- A genre-filter survivor has a present, non-empty genres list. -/
theorem filterByGenre_mem (g : String) (l : List Movie) (m : Movie)
    (h : m ∈ filterByGenre g l) : m ∈ l ∧ ∃ gs, m.genres = some gs ∧ gs ≠ [] := by
  obtain ⟨hm, hp⟩ := List.mem_filter.mp h
  refine ⟨hm, ?_⟩
  cases hgs : m.genres with
  | none => rw [hgs] at hp; simp at hp
  | some gs =>
    rw [hgs] at hp
    simp only [Bool.and_eq_true] at hp
    refine ⟨gs, rfl, ?_⟩
    intro hnil
    rw [hnil] at hp
    simp at hp

/-- An actor-filter survivor has a present, non-empty actors list. -/
theorem filterByActor_mem (a : String) (l : List Movie) (m : Movie)
    (h : m ∈ filterByActor a l) : m ∈ l ∧ ∃ as0, m.actors = some as0 ∧ as0 ≠ [] := by
  obtain ⟨hm, hp⟩ := List.mem_filter.mp h
  refine ⟨hm, ?_⟩
  cases has : m.actors with
  | none => rw [has] at hp; simp at hp
  | some as0 =>
    rw [has] at hp
    simp only [Bool.and_eq_true] at hp
    refine ⟨as0, rfl, ?_⟩
    intro hnil
    rw [hnil] at hp
    simp at hp

/-- Surviving the post-filters implies membership in the input and,
for each active filter, a present non-empty corresponding list. -/
theorem applyFilters_mem (actor genre : Option String) (l : List Movie) (m : Movie)
    (h : m ∈ applyFilters actor genre l) :
    m ∈ l ∧
    (truthyStr genre = true → ∃ gs, m.genres = some gs ∧ gs ≠ []) ∧
    (truthyStr actor = true → ∃ as0, m.actors = some as0 ∧ as0 ≠ []) := by
  unfold applyFilters at h
  cases hat : truthyStr actor with
  | false =>
    rw [hat] at h
    simp only [Bool.false_eq_true, if_false] at h
    cases hgt : truthyStr genre with
    | false =>
      rw [hgt] at h
      simp only [Bool.false_eq_true, if_false] at h
      exact ⟨h, fun hc => Bool.noConfusion hc, fun hc => Bool.noConfusion hc⟩
    | true =>
      rw [hgt] at h
      simp only [if_true] at h
      obtain ⟨hm, hgs⟩ := filterByGenre_mem _ _ _ h
      exact ⟨hm, fun _ => hgs, fun hc => Bool.noConfusion hc⟩
  | true =>
    rw [hat] at h
    simp only [if_true] at h
    obtain ⟨hmid, has⟩ := filterByActor_mem _ _ _ h
    cases hgt : truthyStr genre with
    | false =>
      rw [hgt] at hmid
      simp only [Bool.false_eq_true, if_false] at hmid
      exact ⟨hmid, fun hc => Bool.noConfusion hc, fun _ => has⟩
    | true =>
      rw [hgt] at hmid
      simp only [if_true] at hmid
      obtain ⟨hm, hgs⟩ := filterByGenre_mem _ _ _ hmid
      exact ⟨hm, fun _ => hgs, fun _ => has⟩

/-- Every record the OMDB adapter returns has genres and actors set to
the empty list and provenance OMDB. -/
theorem omdb_ok_shape (outc : CallOutcome OmdbResponse) (ms : List Movie)
    (h : OMDBService.search outc = Except.ok ms) :
    ∀ m ∈ ms, m.genres = some [] ∧ m.actors = some [] ∧ m.source_api = SourceApi.OMDB := by
  cases outc with
  | ok resp =>
    cases resp with
    | respTrue items =>
      simp only [OMDBService.search] at h
      injection h with h2
      intro m hm
      rw [← h2] at hm
      rcases List.mem_filterMap.mp hm with ⟨it, hit, hmap⟩
      unfold omdbMapItem at hmap
      split at hmap
      · injection hmap with h3
        rw [← h3]
        exact ⟨rfl, rfl, rfl⟩
      · cases hmap
    | respFalse =>
      simp only [OMDBService.search] at h
      injection h with h2
      intro m hm
      rw [← h2] at hm
      cases hm
  | fail he => cases he <;> simp [OMDBService.search] at h

/-- Every result of a successful gather was one of the gathered tasks. -/
theorem gatherExcept_ok_mem {ε α : Type} (l : List (Except ε α)) (as : List α)
    (h : gatherExcept l = Except.ok as) : ∀ a ∈ as, Except.ok a ∈ l := by
  induction l generalizing as with
  | nil =>
    simp only [gatherExcept] at h
    injection h with h2
    intro a ha
    rw [← h2] at ha
    cases ha
  | cons x xs ih =>
    cases x with
    | error e => simp [gatherExcept] at h
    | ok b =>
      cases hg : gatherExcept xs with
      | error e => rw [gatherExcept, hg] at h; cases h
      | ok rest =>
        rw [gatherExcept, hg] at h
        injection h with h2
        intro a ha
        rw [← h2] at ha
        rcases List.mem_cons.mp ha with h3 | h3
        · rw [h3]; exact List.mem_cons_self _ _
        · exact List.mem_cons_of_mem _ (ih rest hg a h3)

/-- Every record a TMDB sub-search returns has provenance TMDB. -/
theorem single_type_source (k : TmdbKind) (so : CallOutcome (List TmdbHit))
    (dOf cOf : Nat → CallOutcome (List String)) (ms : List Movie)
    (h : TMDBService.search_single_type k so dOf cOf = Except.ok ms) :
    ∀ m ∈ ms, m.source_api = SourceApi.TMDB := by
  unfold TMDBService.search_single_type at h
  split at h
  · cases h
  · split at h
    · injection h with h2
      intro m hm
      rw [← h2] at hm
      cases hm
    · split at h
      · cases h
      · injection h with h2
        intro m hm
        rw [← h2] at hm
        rcases List.mem_filterMap.mp hm with ⟨p, hp, hmap⟩
        unfold TMDBService.mapHit at hmap
        split at hmap
        · cases hmap
        · injection hmap with h3
          rw [← h3]

/-- Every record the TMDB adapter returns has provenance TMDB. -/
theorem tmdb_search_source (mt : Option MovieType) (mS tvS : CallOutcome (List TmdbHit))
    (dM cM dT cT : Nat → CallOutcome (List String)) (ms : List Movie)
    (h : TMDBService.search mt mS tvS dM cM dT cT = Except.ok ms) :
    ∀ m ∈ ms, m.source_api = SourceApi.TMDB := by
  unfold TMDBService.search at h
  cases hg : gatherExcept (TMDBService.tasks mt mS tvS dM cM dT cT) with
  | error e => rw [hg] at h; cases h
  | ok lists =>
    rw [hg] at h
    injection h with h2
    intro m hm
    rw [← h2] at hm
    rcases List.mem_flatten.mp hm with ⟨sub, hsub, hmsub⟩
    have hoksub := gatherExcept_ok_mem _ _ hg sub hsub
    unfold TMDBService.tasks at hoksub
    cases mt with
    | none =>
      rcases List.mem_cons.mp hoksub with h3 | h3
      · exact single_type_source _ _ _ _ _ h3.symm m hmsub
      · rcases List.mem_cons.mp h3 with h4 | h4
        · exact single_type_source _ _ _ _ _ h4.symm m hmsub
        · cases h4
    | some t =>
      cases t with
      | movie =>
        rcases List.mem_cons.mp hoksub with h3 | h3
        · exact single_type_source _ _ _ _ _ h3.symm m hmsub
        · cases h3
      | series =>
        rcases List.mem_cons.mp hoksub with h3 | h3
        · exact single_type_source _ _ _ _ _ h3.symm m hmsub
        · cases h3

/-- C9: when an actor or genre filter is active, no record of a
successful aggregate result has provenance OMDB: the OMDB adapter
always attaches empty genres and actors lists, and the post-filters
drop every record whose corresponding list is absent or empty, so only
TMDB-sourced records can survive. -/
theorem C9_filters_exclude_omdb (env : ProviderEnv) (title : Option String)
    (mtype : Option MovieType) (actor genre : Option String) (r : MovieSearchResult)
    (hfilter : (truthyStr actor || truthyStr genre) = true)
    (h : search_movies env title mtype actor genre = Except.ok r) :
    ∀ m ∈ r.search_results, m.source_api ≠ SourceApi.OMDB := by
  unfold search_movies at h
  split at h
  · cases ho : OMDBService.search (env.omdb (deriveQuery title actor genre) mtype) with
    | error e => rw [ho] at h; cases h
    | ok om =>
      rw [ho] at h
      cases ht : tmdbCall env (deriveQuery title actor genre) mtype with
      | error e => rw [ht] at h; cases h
      | ok tm =>
        rw [ht] at h
        injection h with h2
        intro m hm hOMDB
        rw [← h2] at hm
        simp only [] at hm
        obtain ⟨hmem, hgp, hap⟩ := applyFilters_mem actor genre _ m hm
        have hmm := mem_of_mem_dedupMovies _ m hmem
        rcases List.mem_append.mp hmm with homd | htmd
        · obtain ⟨hg0, ha0, -⟩ := omdb_ok_shape _ _ ho m homd
          rcases Bool.or_eq_true_iff.mp hfilter with hat | hgt
          · obtain ⟨as0, has, hne⟩ := hap hat
            rw [ha0] at has
            injection has with h4
            exact hne h4.symm
          · obtain ⟨gs, hgs, hne⟩ := hgp hgt
            rw [hg0] at hgs
            injection hgs with h4
            exact hne h4.symm
        · unfold tmdbCall at ht
          have hsrc := tmdb_search_source _ _ _ _ _ _ _ _ ht m htmd
          rw [hsrc] at hOMDB
          cases hOMDB
  · cases h

/-- C9 witness: in a concrete run with an active genre filter the
surviving record is TMDB-sourced. -/
theorem C9_witness : movieB.source_api ≠ SourceApi.OMDB :=
  C9_filters_exclude_omdb envC1 (some "Matrix") none none (some "Action") resultC1
    (by decide) (by decide) movieB (by decide)
